import Mathlib

/-
  Verification of the chat proxy endpoint `POST` from `src/pages/api/chat.ts`
  of the porto-astro repository.

  The handler is embedded as a total Lean function.  JavaScript effects are
  made explicit:
  * the inbound `request.json()` result is an `InboundBody` (it either throws,
    modelled as `malformed`, or yields a `ChatRequestBody` whose fields may be
    `undefined`, modelled with `Option String`);
  * the single outbound `fetch` is a parameter `f : GroqRequest → FetchOutcome`
    describing what the network does for a given outgoing request; `fetch` may
    reject (`networkError`) or resolve to a response with an `ok` flag and a
    body whose `json()` call may itself throw (`parseError`);
  * the JavaScript truthiness operator `x || d` on string-or-undefined values
    is `falsyOr` (both `undefined` and the empty string select the default);
  * the expression `data.choices[0]?.message?.content` is `extractContent`:
    indexing `[0]` on an absent `choices` field throws a TypeError (an
    `Except.error`, landing in the catch block), while an empty choices array
    or absent message/content short-circuits to `undefined` via `?.`;
  * the handler returns an `HttpReply` (status plus the JSON body's `message`
    string) together with the list of outbound calls it attempted.
-/

namespace PortoAstro

/-- A parsed inbound JSON body: `message` and `context` may each be absent. -/
structure ChatRequestBody where
  message : Option String
  context : Option String
deriving DecidableEq, Repr

/-- Outcome of `await request.json()`: it may throw on a malformed body. -/
inductive InboundBody where
  | malformed
  | parsed (body : ChatRequestBody)
deriving DecidableEq, Repr

/-- One instruction in the outgoing completion call.  `content` is `Option`
because the user message is forwarded verbatim and may be absent. -/
structure GroqMessage where
  role : String
  content : Option String
deriving DecidableEq, Repr

/-- The outgoing request the handler builds for the upstream provider. -/
structure GroqRequest where
  apiKey : String
  model : String
  messages : List GroqMessage
  temperature : ℚ
  max_tokens : ℕ
deriving DecidableEq, Repr

/-- `message` object of one generated choice; `content` may be absent. -/
structure ChoiceMessage where
  content : Option String
deriving DecidableEq, Repr

/-- One element of the upstream `choices` array; `message` may be absent. -/
structure Choice where
  message : Option ChoiceMessage
deriving DecidableEq, Repr

/-- The JSON document of a provider response; the `choices` field itself may
be absent (in JavaScript, indexing into it then throws). -/
structure ChatCompletion where
  choices : Option (List Choice)
deriving DecidableEq, Repr

/-- Outcome of `await response.json()` on the provider response. -/
inductive UpstreamBody where
  | parseError
  | json (data : ChatCompletion)
deriving DecidableEq, Repr

/-- Outcome of the outbound `fetch`: rejection, or a response carrying the
`ok` flag and a body. -/
inductive FetchOutcome where
  | networkError
  | response (ok : Bool) (body : UpstreamBody)
deriving DecidableEq, Repr

/-- The reply the handler sends: HTTP status and the `message` field of the
JSON body. -/
structure HttpReply where
  status : ℕ
  message : String
deriving DecidableEq, Repr

/-- JavaScript `x || d` for a string-or-undefined `x`: both `undefined` and
the empty string are falsy and select the default `d`. -/
def falsyOr : Option String → String → String
  | none, d => d
  | some s, d => if s = "" then d else s

/-- The placeholder credential used when `GROQ_API_KEY` is falsy. -/
def demoKey : String := "gsk_demo_key"

/-- The default system instruction used when `context` is falsy. -/
def defaultSystemPrompt : String := "You are a helpful assistant."

/-- Fallback reply #1, returned when the provider reports a non-ok status. -/
def capabilityFallback : String :=
  "I\x27m Adam\x27s AI assistant! I can help you learn about:\n\n• My experience as an IT Trainer at Enigma Camp\n• My technical skills (Java Spring Boot, React, Angular)\n• My projects and portfolio\n• My education and certifications\n\nWhat would you like to know?"

/-- Fallback reply #2, returned from the catch block on any thrown error. -/
def invitationFallback : String :=
  "I\x27m here to help you learn about Adam Maulana! Ask me about his experience, skills, projects, or how to contact him. 😊"

/-- The generic apology substituted when extraction yields no usable text. -/
def apologyMessage : String := "I apologize, I could not process that request."

/-- The success-shaped reply: status 200 with a JSON `message` body. -/
def okReply (msg : String) : HttpReply := ⟨200, msg⟩

/-- The outgoing call built by the handler: fixed model, the system
instruction `context || default`, the user instruction `message` verbatim,
temperature 0.7 and max_tokens 500. -/
def groqRequest (apiKey : String) (body : ChatRequestBody) : GroqRequest :=
  { apiKey := apiKey
    model := "llama-3.3-70b-versatile"
    messages :=
      [ { role := "system", content := some (falsyOr body.context defaultSystemPrompt) },
        { role := "user", content := body.message } ]
    temperature := 7/10
    max_tokens := 500 }

/-- `data.choices[0]?.message?.content`: an absent `choices` field makes the
indexing throw (`error`); otherwise optional chaining yields the content,
which may be `undefined`. -/
def extractContent (data : ChatCompletion) : Except Unit (Option String) :=
  match data.choices with
  | none => Except.error ()
  | some cs =>
    match cs.head? with
    | none => Except.ok none
    | some c =>
      match c.message with
      | none => Except.ok none
      | some m => Except.ok m.content

/-- The handler `POST` of `src/pages/api/chat.ts`, as a function of the
`GROQ_API_KEY` environment value, the inbound body, and the behaviour `f` of
the single outbound `fetch`.  Returns the reply sent to the caller together
with the list of outbound calls attempted. -/
def POST (env_GROQ_API_KEY : Option String) (inbound : InboundBody)
    (f : GroqRequest → FetchOutcome) : HttpReply × List GroqRequest :=
  match inbound with
  | .malformed => (okReply invitationFallback, [])
  | .parsed body =>
    let GROQ_API_KEY := falsyOr env_GROQ_API_KEY demoKey
    let req := groqRequest GROQ_API_KEY body
    match f req with
    | .networkError => (okReply invitationFallback, [req])
    | .response ok ubody =>
      if !ok then
        (okReply capabilityFallback, [req])
      else
        match ubody with
        | .parseError => (okReply invitationFallback, [req])
        | .json data =>
          match extractContent data with
          | .error _ => (okReply invitationFallback, [req])
          | .ok content => (okReply (falsyOr content apologyMessage), [req])

/-- Helper: `x || d` never yields the empty string when the default is
non-empty. -/
theorem falsyOr_ne_empty (v : Option String) (d : String) (hd : d ≠ "") :
    falsyOr v d ≠ "" := by
  cases v with
  | none => exact hd
  | some s =>
    by_cases hs : s = ""
    · simp only [falsyOr, hs, if_pos]; exact hd
    · simp only [falsyOr, hs, if_neg]; exact hs

/-- Helper: fallback reply #1 is a non-empty string. -/
theorem capabilityFallback_ne_empty : capabilityFallback ≠ "" := by decide

/-- Helper: fallback reply #2 is a non-empty string. -/
theorem invitationFallback_ne_empty : invitationFallback ≠ "" := by decide

/-- Helper: the apology string is non-empty. -/
theorem apologyMessage_ne_empty : apologyMessage ≠ "" := by decide

/-- C1: every invocation of the handler completes with status 200 and a
success-shaped JSON reply `{ message }`; no non-200 status or raw error
reaches the caller. -/
theorem POST_always_ok (env : Option String) (inbound : InboundBody)
    (f : GroqRequest → FetchOutcome) :
    ((POST env inbound f).1).status = 200
      ∧ (POST env inbound f).1 = okReply ((POST env inbound f).1).message := by
  cases inbound with
  | malformed => exact ⟨rfl, rfl⟩
  | parsed body =>
    simp only [POST]
    cases f (groqRequest (falsyOr env demoKey) body) with
    | networkError => exact ⟨rfl, rfl⟩
    | response ok ubody =>
      cases ok with
      | false => exact ⟨rfl, rfl⟩
      | true =>
        cases ubody with
        | parseError => exact ⟨rfl, rfl⟩
        | json data =>
          dsimp only
          cases extractContent data with
          | error e => exact ⟨rfl, rfl⟩
          | ok content => exact ⟨rfl, rfl⟩

/-- C2: whenever the upstream call resolves with a non-ok status (for
example an authentication failure from an unconfigured credential), the
handler replies with the fixed capability-description fallback (fallback
reply #1), wrapped as a status-200 success; the failure is not propagated. -/
theorem POST_non_success_gives_capability_fallback (env : Option String)
    (body : ChatRequestBody) (f : GroqRequest → FetchOutcome)
    (ubody : UpstreamBody)
    (h : f (groqRequest (falsyOr env demoKey) body) = .response false ubody) :
    (POST env (.parsed body) f).1 = okReply capabilityFallback := by
  simp only [POST]
  rw [h]
  rfl

/-- Witness for C2: with no credential configured and a provider that
rejects with HTTP 401, the caller receives the capability fallback. -/
theorem POST_non_success_gives_capability_fallback_witness :
    (POST none (.parsed ⟨some "Hi", none⟩)
        (fun _ => .response false .parseError)).1 = okReply capabilityFallback :=
  POST_non_success_gives_capability_fallback none ⟨some "Hi", none⟩
    (fun _ => .response false .parseError) .parseError rfl

/-- C3: whenever a step of the handler throws — a malformed inbound body, a
rejected `fetch` (network failure), a provider body that fails JSON parsing,
or the TypeError from indexing an absent `choices` field — the error is
caught and the handler replies with the fixed invitation fallback (fallback
reply #2), without raising. -/
theorem POST_thrown_error_gives_invitation_fallback (env : Option String)
    (inbound : InboundBody) (f : GroqRequest → FetchOutcome)
    (h : inbound = .malformed
      ∨ (∃ body, inbound = .parsed body
          ∧ f (groqRequest (falsyOr env demoKey) body) = .networkError)
      ∨ (∃ body, inbound = .parsed body
          ∧ f (groqRequest (falsyOr env demoKey) body) = .response true .parseError)
      ∨ (∃ body data, inbound = .parsed body
          ∧ f (groqRequest (falsyOr env demoKey) body) = .response true (.json data)
          ∧ data.choices = none)) :
    (POST env inbound f).1 = okReply invitationFallback := by
  rcases h with h | ⟨body, hb, hf⟩ | ⟨body, hb, hf⟩ | ⟨body, data, hb, hf, hc⟩
  · subst h; rfl
  · subst hb; simp only [POST]; rw [hf]
  · subst hb; simp only [POST]; rw [hf]; rfl
  · subst hb; simp only [POST]; rw [hf]
    simp only [extractContent, hc]
    rfl

/-- Witness for C3: an unreachable provider (rejected fetch) yields the
invitation fallback. -/
theorem POST_thrown_error_gives_invitation_fallback_witness :
    (POST none (.parsed ⟨some "Hi", none⟩)
        (fun _ => .networkError)).1 = okReply invitationFallback :=
  POST_thrown_error_gives_invitation_fallback none (.parsed ⟨some "Hi", none⟩)
    (fun _ => .networkError)
    (Or.inr (Or.inl ⟨⟨some "Hi", none⟩, rfl, rfl⟩))

/-- C4: when the provider resolves ok with a well-formed body whose first
generated message has content `"Hello!"`, the handler replies
`{ message := "Hello!" }` with the text unchanged. -/
theorem POST_success_text_unchanged (env : Option String) (body : ChatRequestBody)
    (f : GroqRequest → FetchOutcome) (rest : List Choice)
    (h : f (groqRequest (falsyOr env demoKey) body)
        = .response true (.json ⟨some ({ message := some ⟨some "Hello!"⟩ } :: rest)⟩)) :
    (POST env (.parsed body) f).1 = okReply "Hello!" := by
  simp only [POST]
  rw [h]
  rfl

/-- Witness for C4: a concrete ok response generating `"Hello!"`. -/
theorem POST_success_text_unchanged_witness :
    (POST none (.parsed ⟨some "Hi", none⟩)
        (fun _ => .response true (.json ⟨some [{ message := some ⟨some "Hello!"⟩ }]⟩))).1
      = okReply "Hello!" :=
  POST_success_text_unchanged none ⟨some "Hi", none⟩
    (fun _ => .response true (.json ⟨some [{ message := some ⟨some "Hello!"⟩ }]⟩)) [] rfl

/-- C5: when the provider resolves ok with an empty `choices` array, optional
chaining yields `undefined`, and the handler replies with the generic apology
string instead of throwing. -/
theorem POST_no_choices_gives_apology (env : Option String) (body : ChatRequestBody)
    (f : GroqRequest → FetchOutcome)
    (h : f (groqRequest (falsyOr env demoKey) body) = .response true (.json ⟨some []⟩)) :
    (POST env (.parsed body) f).1 = okReply apologyMessage := by
  simp only [POST]
  rw [h]
  rfl

/-- Witness for C5: a concrete ok response with `choices: []`. -/
theorem POST_no_choices_gives_apology_witness :
    (POST none (.parsed ⟨some "Hi", none⟩)
        (fun _ => .response true (.json ⟨some []⟩))).1 = okReply apologyMessage :=
  POST_no_choices_gives_apology none ⟨some "Hi", none⟩
    (fun _ => .response true (.json ⟨some []⟩)) rfl

/-- C6: for every request whose `message` is present and non-empty, the reply
carries a non-empty `message` on every path (success, non-ok status, empty
generation, or caught exception). -/
theorem POST_reply_message_nonempty (env : Option String) (body : ChatRequestBody)
    (f : GroqRequest → FetchOutcome) (m : String)
    (hm : body.message = some m) (hne : m ≠ "") :
    (POST env (.parsed body) f).1.message ≠ "" := by
  simp only [POST]
  cases f (groqRequest (falsyOr env demoKey) body) with
  | networkError => exact invitationFallback_ne_empty
  | response ok ubody =>
    cases ok with
    | false => exact capabilityFallback_ne_empty
    | true =>
      cases ubody with
      | parseError => exact invitationFallback_ne_empty
      | json data =>
        dsimp only
        cases extractContent data with
        | error e => exact invitationFallback_ne_empty
        | ok content => exact falsyOr_ne_empty content apologyMessage apologyMessage_ne_empty

/-- Witness for C6: a concrete non-empty message against an unreachable
provider. -/
theorem POST_reply_message_nonempty_witness :
    (POST none (.parsed ⟨some "Hi", none⟩) (fun _ => .networkError)).1.message ≠ "" :=
  POST_reply_message_nonempty none ⟨some "Hi", none⟩ (fun _ => .networkError)
    "Hi" rfl (by decide)

/-- C7 counterexample: with `context` supplied as the (present) empty string,
the system instruction of the built call is the generic default, which is not
equal to the request's `context`, although `context` is not absent — so the
claim "system instruction equal to the request's `context`, or a generic
default when absent" fails as stated. -/
theorem POST_system_instruction_counterexample :
    (POST none (.parsed ⟨some "Hi", some ""⟩) (fun _ => .networkError)).2.map
        (fun r => r.messages.map GroqMessage.content)
      = [[some defaultSystemPrompt, some "Hi"]]
    ∧ (ChatRequestBody.mk (some "Hi") (some "")).context = some ""
    ∧ defaultSystemPrompt ≠ "" :=
  ⟨rfl, rfl, by decide⟩

/-- C7 (amended): for every request, the handler attempts exactly one
upstream call; it carries exactly two instructions in order — a system
instruction equal to `context` when that is present and non-empty, and the
generic default when `context` is absent or empty, then a user instruction
equal to the request's `message` verbatim — with the fixed model identifier,
fixed sampling temperature 0.7, and fixed maximum output length 500. -/
theorem POST_builds_fixed_upstream_call (env : Option String) (body : ChatRequestBody)
    (f : GroqRequest → FetchOutcome) :
    (POST env (.parsed body) f).2 = [groqRequest (falsyOr env demoKey) body]
    ∧ (groqRequest (falsyOr env demoKey) body).messages
        = [⟨"system", some (falsyOr body.context defaultSystemPrompt)⟩,
           ⟨"user", body.message⟩]
    ∧ (groqRequest (falsyOr env demoKey) body).model = "llama-3.3-70b-versatile"
    ∧ (groqRequest (falsyOr env demoKey) body).temperature = 7/10
    ∧ (groqRequest (falsyOr env demoKey) body).max_tokens = 500 := by
  refine ⟨?_, rfl, rfl, rfl, rfl⟩
  simp only [POST]
  cases f (groqRequest (falsyOr env demoKey) body) with
  | networkError => rfl
  | response ok ubody =>
    cases ok with
    | false => rfl
    | true =>
      cases ubody with
      | parseError => rfl
      | json data =>
        dsimp only
        cases extractContent data with
        | error e => rfl
        | ok content => rfl

/-- C8: with no `GROQ_API_KEY` in the environment the handler does not crash:
it substitutes the demo placeholder credential, still attempts the single
upstream call, and (when the provider rejects the bad credential) produces
the capability fallback reply for the caller. -/
theorem POST_missing_key_uses_demo (body : ChatRequestBody)
    (f : GroqRequest → FetchOutcome) (ubody : UpstreamBody)
    (h : f (groqRequest demoKey body) = .response false ubody) :
    (POST none (.parsed body) f).2 = [groqRequest demoKey body]
    ∧ (groqRequest demoKey body).apiKey = demoKey
    ∧ (POST none (.parsed body) f).1 = okReply capabilityFallback := by
  refine ⟨?_, rfl, ?_⟩ <;>
    · simp only [POST, falsyOr]
      rw [h]
      rfl

/-- Witness for C8: a provider rejecting the demo credential with HTTP 401. -/
theorem POST_missing_key_uses_demo_witness :
    (POST none (.parsed ⟨some "Hi", none⟩)
        (fun _ => .response false .parseError)).2
          = [groqRequest demoKey ⟨some "Hi", none⟩]
    ∧ (groqRequest demoKey (⟨some "Hi", none⟩ : ChatRequestBody)).apiKey = demoKey
    ∧ (POST none (.parsed ⟨some "Hi", none⟩)
        (fun _ => .response false .parseError)).1 = okReply capabilityFallback :=
  POST_missing_key_uses_demo ⟨some "Hi", none⟩
    (fun _ => .response false .parseError) .parseError rfl

/-- C9: when the provider resolves ok and the first generated message has the
empty string as content, the handler substitutes the generic apology — the
`||` extraction treats empty text exactly like absent text, so the two cases
produce identical replies. -/
theorem POST_empty_text_gives_apology (env : Option String) (body : ChatRequestBody)
    (f g : GroqRequest → FetchOutcome) (rest rest2 : List Choice)
    (hf : f (groqRequest (falsyOr env demoKey) body)
        = .response true (.json ⟨some ({ message := some ⟨some ""⟩ } :: rest)⟩))
    (hg : g (groqRequest (falsyOr env demoKey) body)
        = .response true (.json ⟨some ({ message := some ⟨none⟩ } :: rest2)⟩)) :
    (POST env (.parsed body) f).1 = okReply apologyMessage
    ∧ (POST env (.parsed body) f).1 = (POST env (.parsed body) g).1 := by
  constructor <;>
    · simp only [POST]
      rw [hf]
      try rw [hg]
      rfl

/-- Witness for C9: a concrete empty-content generation and a concrete
absent-content generation give the same apology reply. -/
theorem POST_empty_text_gives_apology_witness :
    (POST none (.parsed ⟨some "Hi", none⟩)
        (fun _ => .response true (.json ⟨some [{ message := some ⟨some ""⟩ }]⟩))).1
      = okReply apologyMessage
    ∧ (POST none (.parsed ⟨some "Hi", none⟩)
        (fun _ => .response true (.json ⟨some [{ message := some ⟨some ""⟩ }]⟩))).1
      = (POST none (.parsed ⟨some "Hi", none⟩)
          (fun _ => .response true (.json ⟨some [{ message := some ⟨none⟩ }]⟩))).1 :=
  POST_empty_text_gives_apology none ⟨some "Hi", none⟩
    (fun _ => .response true (.json ⟨some [{ message := some ⟨some ""⟩ }]⟩))
    (fun _ => .response true (.json ⟨some [{ message := some ⟨none⟩ }]⟩))
    [] [] rfl rfl

/-- C10: when the request supplies `context` as the present-but-empty string,
the handler behaves identically to an absent `context` — the whole invocation
(reply and attempted call) coincides, and the system instruction of the built
call is the generic default, because the substitution is a falsy-or, not a
presence check. -/
theorem POST_empty_context_uses_default (env : Option String) (msg : Option String)
    (f : GroqRequest → FetchOutcome) :
    POST env (.parsed ⟨msg, some ""⟩) f = POST env (.parsed ⟨msg, none⟩) f
    ∧ (groqRequest (falsyOr env demoKey) ⟨msg, some ""⟩).messages.head?
        = some ⟨"system", some defaultSystemPrompt⟩ := by
  have hreq : groqRequest (falsyOr env demoKey) ⟨msg, some ""⟩
      = groqRequest (falsyOr env demoKey) ⟨msg, none⟩ := by
    simp [groqRequest, falsyOr]
  constructor
  · simp only [POST]
    rw [hreq]
  · rw [hreq]
    rfl

end PortoAstro
